import Mathlib

/-!
Verification of the go-ipfs-cmds response-stream core against its
natural-language specification.

The development shallowly embeds the two source files:

* `src/http/http_test.go` (second part): the in-process stream pair
  `chanStream` with its `chanResponse` (read side) and
  `chanResponseEmitter` (write side).  The unbuffered Go channel `ch` is
  modelled as a FIFO list `buffer` of values handed off to the consumer,
  together with an explicit `consumerReady` flag standing for "a receiver
  is currently waiting at the channel" in the emitter's `select`, and a
  `ctxDone` flag standing for "the request context's Done channel is
  closed".  The `select` statements are determinized by giving the
  channel case priority over the cancellation case; the claims settled
  here never exercise the race where both are ready.

* `src/cli/responseemitter.go`: the CLI `responseEmitter`.  Its two
  output writers are modelled as optional sinks (detached sinks are
  `none`, matching the nil writers of the Go code) and the bytes written
  to them are recorded in observable traces.  The injected encoder is an
  opaque capability; its presence is a boolean and a successful encode
  appends an `encoded` item to the stdout trace.

Go panics are modelled as explicit `panicked` outcomes; closing an
already-closed Go channel is such a panic.
-/

namespace IpfsCmds

/-- A payload carried by the stream: an ordinary value, an error-typed
value (the deprecated error-via-stream convention), or an `io.Reader`
carrying raw bytes. -/
inductive Payload where
  | str : String → Payload
  | errV : String → Payload
  | reader : String → Payload
deriving DecidableEq

/-- An emitted value: either a bare payload or a `cmds.Single` envelope
wrapping a payload.  (In Go a plain value carries no wrapper; `base`
marks exactly the values that are not `Single` envelopes.  The branch of
both emitters that flattens nested `chan interface\x7b\x7d` values by
delegating to `cmds.EmitChan` is outside this embedding: no claim below
exercises nested streams, and `EmitChan`'s own source is not part of the
two embedded files.) -/
inductive Val where
  | base : Payload → Val
  | single : Payload → Val
deriving DecidableEq

/-- Unwrapping done by `chanResponse.Next`: a `Single` envelope yields its
inner value, anything else is returned as-is. -/
def unwrapVal : Val → Payload
  | .base p => p
  | .single p => p

/-- Whether the value is a `cmds.Single` envelope. -/
def isSingleVal : Val → Bool
  | .single _ => true
  | .base _ => false

/-- A terminal error recorded at close: `io.EOF` (the success sentinel)
or a carried error message. -/
inductive Err where
  | eof
  | emsg : String → Err
deriving DecidableEq

/-- Errors returned by `Emit`: `cmds.ErrClosedEmitter`, or the context's
cancellation error. -/
inductive EmitErr where
  | closedEmitter
  | ctxCancelled
deriving DecidableEq

/-- Reasons for a Go panic reachable in the embedded code. -/
inductive PanicKind where
  | assertNotError
  | closeOfClosedChannel
deriving DecidableEq

/-- Outcome of an `Emit` call.  `blocked` means the call is suspended in
its `select` with neither case ready. -/
inductive EmitOutcome where
  | ok
  | fail : EmitErr → EmitOutcome
  | panicked : PanicKind → EmitOutcome
  | blocked
deriving DecidableEq

/-- Outcome of a `Next` call: a delivered value, end-of-stream carrying
the recorded terminal error, the context's cancellation error, or a
suspended call. -/
inductive NextOutcome where
  | value : Payload → NextOutcome
  | done : Option Err → NextOutcome
  | cancelled
  | blocked
deriving DecidableEq

/-- Modelled from the spec: `debug.AssertNotError` (package `debug`, whose
source is not under `src/`) panics when the emitted value follows the
deprecated error-via-stream convention, i.e. when the value itself is
error-typed.  A `Single` envelope is a struct, not an error, so it never
trips the assertion even when it wraps an error-typed payload. -/
def assertTripsVal : Val → Bool
  | .base (.errV _) => true
  | _ => false

/-- Modelled from the spec: the CLI emitter calls `debug.AssertNotError`
after unwrapping the `Single` envelope, so there it is the payload that
must not be error-typed. -/
def assertTripsPayload : Payload → Bool
  | .errV _ => true
  | _ => false

/-- State of the in-process stream pair `chanStream`
(`src/http/http_test.go`).  `buffer` models the values in flight on the
unbuffered channel `ch`, `chClosed` whether `close(ch)` has run,
`closed` the `closed` flag, `waitFired` whether the one-shot `wait`
channel has been closed, `err` the recorded terminal error, and `length`
the declared length. -/
structure ChanStream where
  buffer : List Val
  chClosed : Bool
  closed : Bool
  waitFired : Bool
  err : Option Err
  length : Nat
deriving DecidableEq

/-- The state produced by `NewChanResponsePair`. -/
def chanInitial : ChanStream :=
  { buffer := [], chClosed := false, closed := false,
    waitFired := false, err := none, length := 0 }

/-- The private `chanResponseEmitter.closeWithError`: sets `closed`,
records the terminal error (substituting `io.EOF` for nil), closes the
channel — a Go panic if the channel is already closed, returned as the
boolean — and fires the `wait` signal. -/
def closeWithErrorCore (s : ChanStream) (e : Option Err) : Bool × ChanStream :=
  let s1 := { s with closed := true, err := some (e.getD .eof) }
  if s1.chClosed then
    (true, s1)
  else
    (false, { s1 with chClosed := true, waitFired := true })

/-- Result of a close call. -/
inductive CloseResult where
  | ok
  | alreadyClosed : String → CloseResult
  | syncFailed : String → CloseResult
  | panickedClose : CloseResult
deriving DecidableEq

/-- `chanResponseEmitter.CloseWithError` (public): fails on an already
closed stream, otherwise delegates to the private close path.
`chanResponseEmitter.Close` is `CloseWithError nil`, i.e. the argument
`none`. -/
def chanCloseWithError (s : ChanStream) (e : Option Err) : CloseResult × ChanStream :=
  if s.closed then
    (.alreadyClosed "close of closed emitter", s)
  else
    let r := closeWithErrorCore s e
    if r.1 then (.panickedClose, r.2) else (.ok, r.2)

/-- `chanResponseEmitter.Emit`.  In source order: the `Single` check
registers a deferred `closeWithError(nil)`; `debug.AssertNotError` may
panic; the `wait` signal is fired; the `closed` flag is checked; finally
the `select` either hands the value to a ready consumer, or returns the
context's error, or blocks.  The deferred close runs whenever the call
returns (not while it is still blocked), even when the body failed with
`ErrClosedEmitter` — in that case closing the already-closed channel
panics. -/
def chanEmit (s : ChanStream) (v : Val) (consumerReady ctxDone : Bool) :
    EmitOutcome × ChanStream :=
  if assertTripsVal v then
    (.panicked .assertNotError, s)
  else
    let s1 := { s with waitFired := true }
    let body : EmitOutcome × ChanStream :=
      if s1.closed then
        (.fail .closedEmitter, s1)
      else if consumerReady then
        (.ok, { s1 with buffer := s1.buffer ++ [v] })
      else if ctxDone then
        (.fail .ctxCancelled, s1)
      else
        (.blocked, s1)
    if isSingleVal v then
      match body with
      | (.blocked, s2) => (.blocked, s2)
      | (r, s2) =>
          let c := closeWithErrorCore s2 none
          if c.1 then (.panicked .closeOfClosedChannel, c.2) else (r, c.2)
    else
      body

/-- `chanResponse.Next`: receives the next value (unwrapping a `Single`
envelope); on a closed channel returns the recorded terminal error; on a
done context returns its cancellation error; otherwise blocks. -/
def chanNext (s : ChanStream) (ctxDone : Bool) : NextOutcome × ChanStream :=
  match s.buffer with
  | v :: rest => (.value (unwrapVal v), { s with buffer := rest })
  | [] =>
      if s.chClosed then (.done s.err, s)
      else if ctxDone then (.cancelled, s)
      else (.blocked, s)

/-- `chanResponseEmitter.SetLength`: records the length only while the
`wait` signal has not fired. -/
def chanSetLength (s : ChanStream) (n : Nat) : ChanStream :=
  if s.waitFired then s else { s with length := n }

/-- `chanResponse.Length`: blocks until the `wait` signal fires, then
returns the declared length.  `none` models the call still blocking. -/
def chanLength (s : ChanStream) : Option Nat :=
  if s.waitFired then some s.length else none

/-- `chanResponse.Error`: blocks until the `wait` signal fires, then
returns the recorded terminal error unless it is absent or the `io.EOF`
success sentinel.  The outer `none` models the call still blocking. -/
def chanError (s : ChanStream) : Option (Option Err) :=
  if s.waitFired then
    some (match s.err with
          | none => none
          | some .eof => none
          | some e => some e)
  else
    none

/-- A sequence of `Emit` calls of plain string values, each with a ready
consumer and a live context. -/
def emitAll : ChanStream → List String → List EmitOutcome × ChanStream
  | s, [] => ([], s)
  | s, x :: xs =>
      let r := chanEmit s (.base (.str x)) true false
      let rest := emitAll r.2 xs
      (r.1 :: rest.1, rest.2)

/-- Repeatedly call `Next` (with a live context) until it stops returning
values, with fuel bounding the number of calls. -/
def consumeFuel : Nat → ChanStream → List NextOutcome
  | 0, _ => []
  | n + 1, s =>
      match chanNext s false with
      | (.value p, s1) => .value p :: consumeFuel n s1
      | (r, _) => [r]

/-! CLI response emitter (`src/cli/responseemitter.go`). -/

/-- Errno values relevant to the sync-tolerance test (`syscall.EINVAL`,
`syscall.ENOTSUP`, and a representative other errno). -/
inductive Errno where
  | einval
  | enotsup
  | eio
deriving DecidableEq

/-- A sync failure from the operating medium: an `*os.PathError` with its
`Op` and wrapped errno, or some other error value. -/
inductive SyncError where
  | pathErr : String → Errno → SyncError
  | nonPath : String → SyncError
deriving DecidableEq

/-- An output writer as the CLI emitter sees it: either not an
`*os.File` (so `Sync` is never attempted), or an OS file whose `Sync`
call fails with the given error (`none` means `Sync` succeeds). -/
inductive Sink where
  | notFile
  | file : Option SyncError → Sink
deriving DecidableEq

/-- One item written to the CLI stdout sink: an encoder-serialized value,
a `Fprintln` rendering of a value, or raw bytes copied from a reader. -/
inductive OutItem where
  | encoded : Payload → OutItem
  | printed : Payload → OutItem
  | raw : String → OutItem
deriving DecidableEq

/-- State of the CLI `responseEmitter`.  `stdout`/`stderr` are the two
writers (detached to `none` by the close path, matching the Go nil
writers); the traces record what was written to each.  `enc` records
whether an encoder is configured (`re.enc != nil`); `chSent` the exit
codes sent on the channel handed back by `NewResponseEmitter`, and
`chClosed` whether that channel was closed. -/
structure CliEmitter where
  stdout : Option Sink
  stderr : Option Sink
  stdoutTrace : List OutItem
  stderrTrace : List String
  length : Nat
  enc : Bool
  exit : Int
  closed : Bool
  chSent : List Int
  chClosed : Bool
deriving DecidableEq

/-- A freshly constructed CLI emitter (`NewResponseEmitter`) over the
given writers, with or without a configured encoder. -/
def cliNew (stdout stderr : Sink) (enc : Bool) : CliEmitter :=
  { stdout := some stdout, stderr := some stderr,
    stdoutTrace := [], stderrTrace := [],
    length := 0, enc := enc, exit := 0, closed := false,
    chSent := [], chClosed := false }

/-- The `ignoreError` closure in `responseEmitter.close`: a sync failure
is tolerated exactly when it is an `*os.PathError` whose `Op` is
`"sync"` and whose wrapped error is `EINVAL` or `ENOTSUP`. -/
def cliIgnoreSyncError : SyncError → Bool
  | .pathErr op n =>
      decide (op = "sync") && (decide (n = Errno.einval) || decide (n = Errno.enotsup))
  | .nonPath _ => false

/-- Outcome of the `f.Sync()`-plus-`ignoreError` block of
`responseEmitter.close` on one writer: the surfaced error, if any.  A
missing (nil) or non-`*os.File` writer is never synced; a tolerated
failure is dropped. -/
def cliSyncOutcome : Option Sink → Option SyncError
  | some (.file (some e)) => if cliIgnoreSyncError e then none else some e
  | _ => none

/-- Render a sync error as the message carried by the returned error. -/
def syncErrMsg : SyncError → String
  | .pathErr op _ => op
  | .nonPath m => m

/-- The private `responseEmitter.close`: rejects a second close; sends
the exit code on the channel and closes it; syncs stderr then stdout
(stopping at the first non-tolerated failure, which becomes the return
value); and — via the deferred block, which always runs once the closed
check has passed — detaches both writers and sets `closed`. -/
def cliClose (s : CliEmitter) : CloseResult × CliEmitter :=
  if s.closed then
    (.alreadyClosed "closing closed responseemitter", s)
  else
    let s1 := { s with chSent := s.chSent ++ [s.exit], chClosed := true }
    let res : CloseResult :=
      match cliSyncOutcome s1.stderr with
      | some e => .syncFailed (syncErrMsg e)
      | none =>
          match cliSyncOutcome s1.stdout with
          | some e => .syncFailed (syncErrMsg e)
          | none => .ok
    (res, { s1 with stdout := none, stderr := none, closed := true })

/-- `responseEmitter.CloseWithError`: with a nil error it is `Close`;
otherwise it rejects an already-closed emitter, sets the exit code to 1,
prints a one-line diagnostic on stderr, and runs the private close. -/
def cliCloseWithError (s : CliEmitter) (e : Option String) : CloseResult × CliEmitter :=
  match e with
  | none => cliClose s
  | some msg =>
      if s.closed then
        (.alreadyClosed "closing closed emitter", s)
      else
        cliClose { s with exit := 1,
                          stderrTrace := s.stderrTrace ++ ["Error: " ++ msg] }

/-- `responseEmitter.Exit`: records the exit code, then (via its defer)
calls `Close`, discarding its result. -/
def cliExit (s : CliEmitter) (code : Int) : CliEmitter :=
  (cliClose { s with exit := code }).2

/-- `responseEmitter.SetLength`: unconditionally records the length. -/
def cliSetLength (s : CliEmitter) (n : Nat) : CliEmitter :=
  { s with length := n }

/-- `responseEmitter.Stdout` accessor. -/
def cliStdout (s : CliEmitter) : Option Sink := s.stdout

/-- `responseEmitter.Stderr` accessor. -/
def cliStderr (s : CliEmitter) : Option Sink := s.stderr

/-- `responseEmitter.Emit`.  In source order: unwrap a `Single` envelope;
`debug.AssertNotError` on the unwrapped value (a panic on an error-typed
value); the nested-channel branch (outside this embedding, see `Val`);
the `*string`/`*int` dereference (the identity here); the `isClosed`
check; then either a raw copy of a reader to stdout or a hand-off to the
encoder (falling back to `Fprintln` when none is configured). -/
def cliEmit (s : CliEmitter) (v : Val) : EmitOutcome × CliEmitter :=
  let p := unwrapVal v
  if assertTripsPayload p then
    (.panicked .assertNotError, s)
  else if s.closed then
    (.fail .closedEmitter, s)
  else
    match p with
    | .reader contents =>
        (.ok, { s with stdoutTrace := s.stdoutTrace ++ [.raw contents] })
    | _ =>
        if s.enc then
          (.ok, { s with stdoutTrace := s.stdoutTrace ++ [.encoded p] })
        else
          (.ok, { s with stdoutTrace := s.stdoutTrace ++ [.printed p] })

/-! Helper lemmas shared by the claim theorems. -/

/-- An `Emit` of a plain string value on an open stream with a ready
consumer succeeds, fires the ready signal and appends the value to the
channel. -/
theorem chanEmit_base_open (s : ChanStream) (a : String) (hc : s.closed = false) :
    chanEmit s (.base (.str a)) true false =
      (.ok, { s with waitFired := true, buffer := s.buffer ++ [.base (.str a)] }) := by
  simp [chanEmit, assertTripsVal, isSingleVal, hc]

/-- A public `CloseWithError` on an open stream succeeds and produces the
closed state with the recorded terminal error. -/
theorem chanClose_open (s : ChanStream) (e : Option Err)
    (hc : s.closed = false) (hch : s.chClosed = false) :
    chanCloseWithError s e =
      (.ok, { s with closed := true, err := some (e.getD .eof),
                     chClosed := true, waitFired := true }) := by
  simp [chanCloseWithError, closeWithErrorCore, hc, hch]

/-- A sequence of plain emits on an open stream all succeed, and the
channel afterwards holds the emitted values in order. -/
theorem emitAll_spec (xs : List String) (s : ChanStream) (hc : s.closed = false) :
    (emitAll s xs).1 = xs.map (fun _ => EmitOutcome.ok) ∧
    (emitAll s xs).2 = { s with
      waitFired := s.waitFired || !xs.isEmpty,
      buffer := s.buffer ++ xs.map (fun x => Val.base (.str x)) } := by
  induction xs generalizing s with
  | nil => simp [emitAll]
  | cons x xs ih =>
      have he := chanEmit_base_open s x hc
      have hrec := ih { s with waitFired := true,
                               buffer := s.buffer ++ [Val.base (.str x)] } (by simp [hc])
      refine ⟨?_, ?_⟩
      · simp [emitAll, he, hrec.1]
      · simp [emitAll, he, hrec.2, List.append_assoc]

/-- Draining a closed stream returns the buffered values in order
(unwrapped), then the recorded terminal error. -/
theorem consumeFuel_closed (bs : List Val) (s : ChanStream)
    (hb : s.buffer = bs) (hch : s.chClosed = true) :
    consumeFuel (bs.length + 1) s =
      bs.map (fun v => NextOutcome.value (unwrapVal v)) ++ [NextOutcome.done s.err] := by
  induction bs generalizing s with
  | nil => simp [consumeFuel, chanNext, hb, hch]
  | cons v rest ih =>
      have hstep : chanNext s false = (.value (unwrapVal v), { s with buffer := rest }) := by
        simp [chanNext, hb]
      have hone : consumeFuel (rest.length + 1 + 1) s =
          .value (unwrapVal v) :: consumeFuel (rest.length + 1) { s with buffer := rest } := by
        rw [consumeFuel, hstep]
      have hr := ih { s with buffer := rest } (by simp) (by simp [hch])
      have hlen : (v :: rest).length + 1 = rest.length + 1 + 1 := rfl
      rw [hlen, hone, hr]
      simp

/-! Claim theorems. -/

/-- Claim C1 (code bug): on a stream closed with error "boom", `Emit` of
a plain value does return `ErrClosedEmitter`, but `Emit` of a `Single`
envelope does not — its unconditionally deferred `closeWithError(nil)`
overwrites the recorded terminal error with `io.EOF` and then panics
closing the already-closed channel, escalating instead of returning the
`ClosedStream` error the claim promises. -/
theorem emit_single_after_close_panics :
    (chanCloseWithError chanInitial (some (.emsg "boom"))).1 = CloseResult.ok ∧
    (chanCloseWithError chanInitial (some (.emsg "boom"))).2.err = some (.emsg "boom") ∧
    (chanEmit (chanCloseWithError chanInitial (some (.emsg "boom"))).2
        (.base (.str "x")) true false).1 = .fail .closedEmitter ∧
    (chanEmit (chanCloseWithError chanInitial (some (.emsg "boom"))).2
        (.single (.str "x")) true false).1 = .panicked .closeOfClosedChannel ∧
    (chanEmit (chanCloseWithError chanInitial (some (.emsg "boom"))).2
        (.single (.str "x")) true false).2.err = some .eof := by
  decide

/-- Claim C2: the first close of an open stream succeeds, a second close
fails with the distinguishable "close of closed emitter" error, and
neither call loses or duplicates any value still in the channel. -/
theorem close_once_succeeds_twice_fails (s : ChanStream) (e e2 : Option Err)
    (hc : s.closed = false) (hch : s.chClosed = false) :
    (chanCloseWithError s e).1 = CloseResult.ok ∧
    (chanCloseWithError s e).2.buffer = s.buffer ∧
    (chanCloseWithError (chanCloseWithError s e).2 e2).1 =
      CloseResult.alreadyClosed "close of closed emitter" ∧
    (chanCloseWithError (chanCloseWithError s e).2 e2).2.buffer = s.buffer := by
  simp [chanCloseWithError, closeWithErrorCore, hc, hch]

/-- Witness for C2 at the freshly created stream pair. -/
theorem close_once_succeeds_twice_fails_witness :
    chanInitial.closed = false ∧ chanInitial.chClosed = false ∧
    ((chanCloseWithError chanInitial (some (.emsg "an error occurred"))).1 = CloseResult.ok ∧
     (chanCloseWithError chanInitial (some (.emsg "an error occurred"))).2.buffer =
       chanInitial.buffer ∧
     (chanCloseWithError (chanCloseWithError chanInitial
         (some (.emsg "an error occurred"))).2 none).1 =
       CloseResult.alreadyClosed "close of closed emitter" ∧
     (chanCloseWithError (chanCloseWithError chanInitial
         (some (.emsg "an error occurred"))).2 none).2.buffer = chanInitial.buffer) :=
  ⟨by decide, by decide,
   close_once_succeeds_twice_fails chanInitial (some (.emsg "an error occurred")) none
     (by decide) (by decide)⟩

/-- Claim C3: emitting a `Single` envelope on an open, empty in-process
stream succeeds; the first `Next` returns the unwrapped inner value and
the following `Next` returns end-of-stream with the `io.EOF` success
sentinel, although the producer never called `Close`. -/
theorem single_emit_delivers_then_eof (x : Payload) (s : ChanStream)
    (hc : s.closed = false) (hch : s.chClosed = false) (hb : s.buffer = []) :
    (chanEmit s (.single x) true false).1 = EmitOutcome.ok ∧
    (chanNext (chanEmit s (.single x) true false).2 false).1 = NextOutcome.value x ∧
    (chanNext (chanNext (chanEmit s (.single x) true false).2 false).2 false).1 =
      NextOutcome.done (some Err.eof) := by
  simp [chanEmit, chanNext, closeWithErrorCore, isSingleVal, assertTripsVal,
    unwrapVal, hc, hch, hb]

/-- Witness for C3: the "single" scenario of the HTTP test table, value
"some value", on the fresh stream pair. -/
theorem single_emit_delivers_then_eof_witness :
    chanInitial.closed = false ∧ chanInitial.chClosed = false ∧ chanInitial.buffer = [] ∧
    ((chanEmit chanInitial (.single (.str "some value")) true false).1 = EmitOutcome.ok ∧
     (chanNext (chanEmit chanInitial (.single (.str "some value")) true false).2 false).1 =
       NextOutcome.value (.str "some value") ∧
     (chanNext (chanNext (chanEmit chanInitial
         (.single (.str "some value")) true false).2 false).2 false).1 =
       NextOutcome.done (some Err.eof)) :=
  ⟨by decide, by decide, by decide,
   single_emit_delivers_then_eof (.str "some value") chanInitial
     (by decide) (by decide) (by decide)⟩

/-- Claim C4 (counterexample): the CLI emitter successfully delivers the
unwrapped inner value of a `Single` envelope, yet afterwards it is still
open — it does not close itself with the success outcome as a side
effect, so the Emission Contract is not identical to the in-process
emitter here. -/
theorem cli_single_emit_leaves_open :
    (cliEmit (cliNew .notFile .notFile true) (.single (.str "v"))).1 = EmitOutcome.ok ∧
    (cliEmit (cliNew .notFile .notFile true) (.single (.str "v"))).2.stdoutTrace =
      [.encoded (.str "v")] ∧
    (cliEmit (cliNew .notFile .notFile true) (.single (.str "v"))).2.closed = false := by
  decide

/-- Claim C4 (amended): both emitters unwrap a `Single` envelope and
deliver its inner value exactly as they would the bare value, but only
the in-process chan emitter closes itself with the `io.EOF` success
outcome as a side effect; the CLI emitter stays open. -/
theorem cli_single_unwraps_without_autoclose (s : CliEmitter) (x : String) (t : ChanStream)
    (hc : s.closed = false) (tc : t.closed = false) (tch : t.chClosed = false) :
    cliEmit s (.single (.str x)) = cliEmit s (.base (.str x)) ∧
    (cliEmit s (.single (.str x))).1 = EmitOutcome.ok ∧
    (cliEmit s (.single (.str x))).2.closed = false ∧
    (chanEmit t (.single (.str x)) true false).1 = EmitOutcome.ok ∧
    (chanEmit t (.single (.str x)) true false).2.closed = true ∧
    (chanEmit t (.single (.str x)) true false).2.err = some .eof := by
    refine ⟨rfl, ?_, ?_, ?_, ?_, ?_⟩ <;>
      cases he : s.enc <;>
        simp [cliEmit, chanEmit, closeWithErrorCore, assertTripsPayload, assertTripsVal,
          isSingleVal, unwrapVal, hc, tc, tch, he]

/-- Witness for the amended C4 on fresh emitters over plain sinks. -/
theorem cli_single_unwraps_without_autoclose_witness :
    (cliNew .notFile .notFile true).closed = false ∧
    chanInitial.closed = false ∧ chanInitial.chClosed = false ∧
    (cliEmit (cliNew .notFile .notFile true) (.single (.str "some value")) =
       cliEmit (cliNew .notFile .notFile true) (.base (.str "some value")) ∧
     (cliEmit (cliNew .notFile .notFile true) (.single (.str "some value"))).1 =
       EmitOutcome.ok ∧
     (cliEmit (cliNew .notFile .notFile true) (.single (.str "some value"))).2.closed =
       false ∧
     (chanEmit chanInitial (.single (.str "some value")) true false).1 = EmitOutcome.ok ∧
     (chanEmit chanInitial (.single (.str "some value")) true false).2.closed = true ∧
     (chanEmit chanInitial (.single (.str "some value")) true false).2.err = some .eof) :=
  ⟨by decide, by decide, by decide,
   cli_single_unwraps_without_autoclose (cliNew .notFile .notFile true) "some value"
     chanInitial (by decide) (by decide) (by decide)⟩

/-- Claim C5 (counterexample): on an already-closed CLI emitter, `Emit`
of an error-typed value does not fail with `ClosedStream` — the
deprecated-error assertion runs before the closed check and the call
panics. -/
theorem closed_cli_emit_error_value_panics :
    (cliClose (cliNew .notFile .notFile true)).2.closed = true ∧
    (cliEmit (cliClose (cliNew .notFile .notFile true)).2 (.base (.errV "boom"))).1 =
      EmitOutcome.panicked .assertNotError := by
  decide

/-- Claim C5 (amended): on a closed emitter, `Emit` of a plain ordinary
value fails with `ClosedStream` and performs no sink step — the CLI
state is untouched, the chan state only has its (already fired) ready
signal set — and the same holds for a `Single`-wrapped ordinary value on
the CLI emitter; but the closed check runs only after `Single`
unwrapping and deprecated-error detection, so an error-typed value on a
closed CLI emitter still panics in the deprecated-error assertion, and a
`Single`-wrapped value on a closed chan emitter triggers the deferred
auto-close, which overwrites the terminal error with `io.EOF` and panics
closing the already-closed channel. -/
theorem closed_emit_plain_fails_closed_stream (s : CliEmitter) (t : ChanStream)
    (x : String) (cr cd : Bool) (hs : s.closed = true) (ht : t.closed = true)
    (htch : t.chClosed = true) :
    cliEmit s (.base (.str x)) = (.fail .closedEmitter, s) ∧
    cliEmit s (.single (.str x)) = (.fail .closedEmitter, s) ∧
    chanEmit t (.base (.str x)) cr cd = (.fail .closedEmitter, { t with waitFired := true }) ∧
    cliEmit s (.base (.errV x)) = (.panicked .assertNotError, s) ∧
    chanEmit t (.single (.str x)) cr cd =
      (.panicked .closeOfClosedChannel,
       { t with waitFired := true, closed := true, err := some .eof }) := by
  simp [cliEmit, chanEmit, closeWithErrorCore, assertTripsPayload, assertTripsVal,
    isSingleVal, unwrapVal, hs, ht, htch]

/-- Witness for the amended C5 on concretely closed emitters. -/
theorem closed_emit_plain_fails_closed_stream_witness :
    (cliClose (cliNew .notFile .notFile false)).2.closed = true ∧
    (chanCloseWithError chanInitial none).2.closed = true ∧
    (chanCloseWithError chanInitial none).2.chClosed = true ∧
    (cliEmit (cliClose (cliNew .notFile .notFile false)).2 (.base (.str "w")) =
       (.fail .closedEmitter, (cliClose (cliNew .notFile .notFile false)).2) ∧
     cliEmit (cliClose (cliNew .notFile .notFile false)).2 (.single (.str "w")) =
       (.fail .closedEmitter, (cliClose (cliNew .notFile .notFile false)).2) ∧
     chanEmit (chanCloseWithError chanInitial none).2 (.base (.str "w")) true false =
       (.fail .closedEmitter,
        { (chanCloseWithError chanInitial none).2 with waitFired := true }) ∧
     cliEmit (cliClose (cliNew .notFile .notFile false)).2 (.base (.errV "w")) =
       (.panicked .assertNotError, (cliClose (cliNew .notFile .notFile false)).2) ∧
     chanEmit (chanCloseWithError chanInitial none).2 (.single (.str "w")) true false =
       (.panicked .closeOfClosedChannel,
        { (chanCloseWithError chanInitial none).2 with
            waitFired := true, closed := true, err := some .eof })) :=
  ⟨by decide, by decide, by decide,
   closed_emit_plain_fails_closed_stream (cliClose (cliNew .notFile .notFile false)).2
     (chanCloseWithError chanInitial none).2 "w" true false
     (by decide) (by decide) (by decide)⟩

/-- Claim C6: any finite sequence of plain emits on an open, empty
stream all succeed; after `Close`, draining with `Next` yields exactly
the emitted values in order and then end-of-stream with the `io.EOF`
success sentinel, the terminal outcome coming strictly last. -/
theorem emit_sequence_then_close_next_in_order (xs : List String) (s : ChanStream)
    (hc : s.closed = false) (hch : s.chClosed = false) (hb : s.buffer = []) :
    (emitAll s xs).1 = xs.map (fun _ => EmitOutcome.ok) ∧
    (chanCloseWithError (emitAll s xs).2 none).1 = CloseResult.ok ∧
    consumeFuel (xs.length + 1) (chanCloseWithError (emitAll s xs).2 none).2 =
      xs.map (fun x => NextOutcome.value (.str x)) ++ [NextOutcome.done (some .eof)] := by
  obtain ⟨h1, h2⟩ := emitAll_spec xs s hc
  have hclose := chanClose_open (emitAll s xs).2 none
    (by rw [h2]; exact hc) (by rw [h2]; exact hch)
  refine ⟨h1, by rw [hclose], ?_⟩
  have hdrain := consumeFuel_closed (xs.map (fun x => Val.base (.str x)))
    (chanCloseWithError (emitAll s xs).2 none).2
    (by rw [hclose, h2]; simp [hb]) (by rw [hclose])
  rw [List.length_map] at hdrain
  rw [hdrain, hclose]
  simp [unwrapVal]

/-- Witness for C6: the spec scenario emitting "hello" then "world" on
the fresh stream pair. -/
theorem emit_sequence_then_close_next_in_order_witness :
    chanInitial.closed = false ∧ chanInitial.chClosed = false ∧ chanInitial.buffer = [] ∧
    ((emitAll chanInitial ["hello", "world"]).1 =
       (["hello", "world"].map (fun _ => EmitOutcome.ok)) ∧
     (chanCloseWithError (emitAll chanInitial ["hello", "world"]).2 none).1 =
       CloseResult.ok ∧
     consumeFuel (["hello", "world"].length + 1)
         (chanCloseWithError (emitAll chanInitial ["hello", "world"]).2 none).2 =
       (["hello", "world"].map (fun x => NextOutcome.value (.str x)) ++
         [NextOutcome.done (some .eof)])) :=
  ⟨by decide, by decide, by decide,
   emit_sequence_then_close_next_in_order ["hello", "world"] chanInitial
     (by decide) (by decide) (by decide)⟩

/-- Claim C7 (counterexample): an `Emit` of a `Single` envelope that is
unblocked by context cancellation does return the cancellation error,
but its deferred auto-close still runs: the stream ends up closed with
`io.EOF` recorded, and the producer's own later `Close` fails — the
cancellation did close the stream. -/
theorem cancelled_single_emit_closes_stream :
    (chanEmit chanInitial (.single (.str "x")) false true).1 = .fail .ctxCancelled ∧
    (chanEmit chanInitial (.single (.str "x")) false true).2.closed = true ∧
    (chanEmit chanInitial (.single (.str "x")) false true).2.err = some .eof ∧
    (chanCloseWithError (chanEmit chanInitial (.single (.str "x")) false true).2 none).1 =
      CloseResult.alreadyClosed "close of closed emitter" := by
  decide

/-- Claim C7 (amended): for a plain (non-`Single`) value, an `Emit`
unblocked by cancellation returns the context's error and leaves the
stream open with no terminal error recorded, and a blocked `Next`
unblocked by cancellation likewise leaves the state untouched; in both
cases a subsequent `Close` by the producer still succeeds.  An `Emit` of
a `Single` envelope is the exception: its deferred auto-close closes the
stream even on cancellation. -/
theorem cancellation_leaves_plain_stream_open (s : ChanStream) (x : String)
    (hc : s.closed = false) (hch : s.chClosed = false) (hb : s.buffer = []) :
    chanEmit s (.base (.str x)) false true =
      (.fail .ctxCancelled, { s with waitFired := true }) ∧
    ({ s with waitFired := true } : ChanStream).closed = false ∧
    ({ s with waitFired := true } : ChanStream).err = s.err ∧
    (chanCloseWithError { s with waitFired := true } none).1 = CloseResult.ok ∧
    chanNext s true = (.cancelled, s) ∧
    (chanCloseWithError s none).1 = CloseResult.ok := by
  refine ⟨?_, ?_, ?_, ?_, ?_, ?_⟩ <;>
    simp [chanEmit, chanNext, chanCloseWithError, closeWithErrorCore,
      assertTripsVal, isSingleVal, hc, hch, hb]

/-- Witness for the amended C7 on the fresh stream pair. -/
theorem cancellation_leaves_plain_stream_open_witness :
    chanInitial.closed = false ∧ chanInitial.chClosed = false ∧ chanInitial.buffer = [] ∧
    (chanEmit chanInitial (.base (.str "x")) false true =
       (.fail .ctxCancelled, { chanInitial with waitFired := true }) ∧
     ({ chanInitial with waitFired := true } : ChanStream).closed = false ∧
     ({ chanInitial with waitFired := true } : ChanStream).err = chanInitial.err ∧
     (chanCloseWithError { chanInitial with waitFired := true } none).1 =
       CloseResult.ok ∧
     chanNext chanInitial true = (.cancelled, chanInitial) ∧
     (chanCloseWithError chanInitial none).1 = CloseResult.ok) :=
  ⟨by decide, by decide, by decide,
   cancellation_leaves_plain_stream_open chanInitial "x"
     (by decide) (by decide) (by decide)⟩

/-- Claim C8 (counterexample): the CLI emitter's `SetLength` is not a
no-op after close — on a closed CLI emitter it still records the new
declared length. -/
theorem cli_setlength_after_close_records :
    (cliClose (cliNew .notFile .notFile true)).2.closed = true ∧
    (cliClose (cliNew .notFile .notFile true)).2.length = 0 ∧
    (cliSetLength (cliClose (cliNew .notFile .notFile true)).2 5).length = 5 := by
  decide

/-- Claim C8 (amended): the chan emitter's `SetLength` records the
declared length exactly while the ready signal has not fired (it fires
on the first `Emit` call or close) and is a silent no-op afterwards,
changing nothing else; `Length` blocks until the ready signal fires and
then returns the recorded length (zero if `SetLength` never ran in
time); the CLI emitter's `SetLength`, by contrast, always records. -/
theorem setlength_window_and_length (s : ChanStream) (c : CliEmitter) (n : Nat) :
    (chanSetLength s n).length = (if s.waitFired then s.length else n) ∧
    (chanSetLength s n).closed = s.closed ∧
    (chanSetLength s n).waitFired = s.waitFired ∧
    (chanSetLength s n).buffer = s.buffer ∧
    (chanSetLength s n).err = s.err ∧
    chanLength s = (if s.waitFired then some s.length else none) ∧
    (cliSetLength c n).length = n := by
  cases h : s.waitFired <;> simp [chanSetLength, chanLength, cliSetLength, h]

/-- Claim C9: the first close of the CLI emitter reports the exit code on
the exit channel exactly once and closes that channel; a second close
fails without reporting again; a sync failure that is an `*os.PathError`
with operation "sync" and errno `EINVAL` or `ENOTSUP` is ignored (close
still returns success), while any other sync failure on stderr, or on
stdout once stderr synced cleanly, is surfaced as the close call's
error. -/
theorem cli_close_sync_and_exit_report (s : CliEmitter) (hc : s.closed = false) :
    (cliClose s).2.chSent = s.chSent ++ [s.exit] ∧
    (cliClose s).2.chClosed = true ∧
    (cliClose s).2.closed = true ∧
    (cliClose (cliClose s).2).1 =
      CloseResult.alreadyClosed "closing closed responseemitter" ∧
    (cliClose (cliClose s).2).2 = (cliClose s).2 ∧
    (cliSyncOutcome s.stderr = none → cliSyncOutcome s.stdout = none →
      (cliClose s).1 = CloseResult.ok) ∧
    (∀ e : SyncError, cliSyncOutcome s.stderr = some e →
      (cliClose s).1 = CloseResult.syncFailed (syncErrMsg e)) ∧
    (∀ e : SyncError, cliSyncOutcome s.stderr = none → cliSyncOutcome s.stdout = some e →
      (cliClose s).1 = CloseResult.syncFailed (syncErrMsg e)) ∧
    (∀ (op : String) (n : Errno), cliIgnoreSyncError (.pathErr op n) = true ↔
      (op = "sync" ∧ (n = Errno.einval ∨ n = Errno.enotsup))) ∧
    (∀ m : String, cliIgnoreSyncError (.nonPath m) = false) := by
  refine ⟨?_, ?_, ?_, ?_, ?_, ?_, ?_, ?_, ?_, ?_⟩
  · simp [cliClose, hc]
  · simp [cliClose, hc]
  · simp [cliClose, hc]
  · simp [cliClose, hc]
  · simp [cliClose, hc]
  · intro h1 h2; simp [cliClose, hc, h1, h2]
  · intro e h1; simp [cliClose, hc, h1]
  · intro e h1 h2; simp [cliClose, hc, h1, h2]
  · intro op n
    simp [cliIgnoreSyncError, Bool.and_eq_true, Bool.or_eq_true, decide_eq_true_eq]
  · intro m; simp [cliIgnoreSyncError]

/-- Witness for C9: a CLI emitter whose stdout syncs cleanly and whose
stderr fails to sync with the tolerated `*os.PathError "sync" EINVAL` —
the exit code is reported and close returns success. -/
theorem cli_close_sync_and_exit_report_witness :
    (cliNew (.file none) (.file (some (.pathErr "sync" .einval))) false).closed = false ∧
    (cliClose (cliNew (.file none)
        (.file (some (.pathErr "sync" .einval))) false)).2.chSent =
      (cliNew (.file none) (.file (some (.pathErr "sync" .einval))) false).chSent ++
        [(cliNew (.file none) (.file (some (.pathErr "sync" .einval))) false).exit] ∧
    (cliClose (cliNew (.file none)
        (.file (some (.pathErr "sync" .einval))) false)).1 = CloseResult.ok := by
  have h := cli_close_sync_and_exit_report
    (cliNew (.file none) (.file (some (.pathErr "sync" .einval))) false) (by decide)
  exact ⟨by decide, h.1, h.2.2.2.2.2.1 (by decide) (by decide)⟩

/-- Claim C10: the close path detaches both output sinks — afterwards the
`Stdout` and `Stderr` accessors return nil — while leaving the recorded
exit code, the encoder flag and the declared length unchanged; the
detachment equally happens when closing through `Exit` or
`CloseWithError`. -/
theorem cli_close_detaches_sinks_frame (s : CliEmitter) (c : Int) (msg : String)
    (hc : s.closed = false) :
    (cliClose s).2.stdout = none ∧
    (cliClose s).2.stderr = none ∧
    cliStdout (cliClose s).2 = none ∧
    cliStderr (cliClose s).2 = none ∧
    (cliClose s).2.exit = s.exit ∧
    (cliClose s).2.enc = s.enc ∧
    (cliClose s).2.length = s.length ∧
    (cliExit s c).stdout = none ∧
    (cliExit s c).stderr = none ∧
    (cliExit s c).enc = s.enc ∧
    (cliCloseWithError s (some msg)).2.stdout = none ∧
    (cliCloseWithError s (some msg)).2.stderr = none ∧
    (cliCloseWithError s (some msg)).2.enc = s.enc := by
  simp [cliClose, cliExit, cliCloseWithError, cliStdout, cliStderr, hc]

/-- Witness for C10 on a concrete open CLI emitter. -/
theorem cli_close_detaches_sinks_frame_witness :
    (cliNew .notFile (.file none) true).closed = false ∧
    cliStdout (cliClose (cliNew .notFile (.file none) true)).2 = none ∧
    (cliExit (cliNew .notFile (.file none) true) 5).stderr = none ∧
    (cliCloseWithError (cliNew .notFile (.file none) true) (some "boom")).2.stdout =
      none := by
  have h := cli_close_detaches_sinks_frame (cliNew .notFile (.file none) true) 5 "boom"
    (by decide)
  exact ⟨by decide, h.2.2.1, h.2.2.2.2.2.2.2.2.1, h.2.2.2.2.2.2.2.2.2.2.1⟩

end IpfsCmds
